import Mathlib

/-!
Verification of the docker-worlds world lifecycle orchestrator.

The definitions below are a shallow embedding of the JavaScript sources:
`world-launch.js` (launch controller and image builder), the world-stop
script, the `WorldPortal` interactive navigation loop, the alternate
launcher script, and the catalog scan loop of `world-list.js`.
External effects (filesystem reads, `docker` invocations) are modelled by
explicit environment records and by traces of the docker commands issued.
-/

namespace DockerWorlds

/-- World descriptor record as parsed from a `world.json` file.
Fields the scripts read with a falsy default are modelled with that
default made explicit: `port` is optional (defaulting happens at use
sites), `volumeMount` is the JS truthiness of the field (absent = false),
and string fields absent in the JSON are modelled as the empty string. -/
structure World where
  name : String
  image : String
  description : String
  entry : String
  type : String
  port : Option Nat
  tags : List String
  volumeMount : Bool
deriving Repr, DecidableEq

/-- Docker commands a launch can execute: `docker image inspect`,
`docker build -t image dir`, `docker run args`. -/
inductive DockerCmd where
  | imageInspect (image : String)
  | build (image : String) (contextDir : String)
  | run (args : List String)
deriving Repr, DecidableEq

/-- Fatal launch-time errors of `world-launch.js`; each corresponds to a
`console.error` followed by `process.exit(1)`. -/
inductive LaunchError where
  | UnknownWorldType (t : String)
  | MissingBuildContext
  | BuildFailed
deriving Repr, DecidableEq

/-- Environment observed by a launch: whether `docker image inspect`
succeeds, whether a `Dockerfile` exists in the world directory, and
whether a `docker build` would exit with status 0. -/
structure LaunchEnv where
  imageExists : Bool
  dockerfileExists : Bool
  buildSucceeds : Bool
deriving Repr, DecidableEq

/-- Effective port: `parseInt(portOverride || world.port || 8080)`
(world-launch.js line 40). -/
def launchPort (w : World) (portOverride : Option Nat) : Nat :=
  portOverride.getD (w.port.getD 8080)

/-- CLI forcing of the detach flag (world-launch.js lines 47-50):
`if (world.type === 'cli') detached = false`. -/
def effectiveDetached (w : World) (detachedReq : Bool) : Bool :=
  if w.type = "cli" then false else detachedReq

/-- Image-existence check and lazy build (world-launch.js lines 54-72):
inspect the image; if absent, build when a Dockerfile exists, else abort
with a missing-build-context error; a failed build aborts the launch.
Returns the docker commands issued and the fatal error, if any. -/
def ensureImage (w : World) (worldDir : String) (env : LaunchEnv) :
    List DockerCmd × Option LaunchError :=
  if env.imageExists then
    ⟨[DockerCmd.imageInspect w.image], none⟩
  else if env.dockerfileExists then
    ⟨[DockerCmd.imageInspect w.image, DockerCmd.build w.image worldDir],
     if env.buildSucceeds then none else some LaunchError.BuildFailed⟩
  else
    ⟨[DockerCmd.imageInspect w.image], some LaunchError.MissingBuildContext⟩

/-- Argument construction for `docker run` (world-launch.js lines 74-90):
`web` maps the port to internal port 80 and optionally bind-mounts the
world directory onto `/app`; `cli` requests an interactive terminal; any
other type is a fatal unknown-type error. -/
def dockerArgs (w : World) (absoluteDir : String) (port : Nat) (detached : Bool) :
    Except LaunchError (List String) :=
  if w.type = "web" then
    Except.ok (["run", "--rm", "-p", toString port ++ ":80"]
      ++ (if w.volumeMount then ["-v", absoluteDir ++ ":/app"] else [])
      ++ (if detached then ["-d"] else []) ++ [w.image])
  else if w.type = "cli" then
    Except.ok (["run", "--rm", "-it"]
      ++ (if detached then ["-d"] else []) ++ [w.image])
  else
    Except.error (LaunchError.UnknownWorldType w.type)

instance {ε α : Type} [DecidableEq ε] [DecidableEq α] : DecidableEq (Except ε α) := fun x y =>
  match x, y with
  | Except.ok a, Except.ok b =>
    if h : a = b then Decidable.isTrue (congrArg Except.ok h)
    else Decidable.isFalse (fun hc => h (Except.ok.inj hc))
  | Except.error a, Except.error b =>
    if h : a = b then Decidable.isTrue (congrArg Except.error h)
    else Decidable.isFalse (fun hc => h (Except.error.inj hc))
  | Except.ok _, Except.error _ => Decidable.isFalse (fun hc => Except.noConfusion hc)
  | Except.error _, Except.ok _ => Decidable.isFalse (fun hc => Except.noConfusion hc)

/-- Outcome of a launch: the docker commands executed, in order, and
either the fatal error or the argument list of the executed `docker run`. -/
structure LaunchOutcome where
  cmds : List DockerCmd
  result : Except LaunchError (List String)
deriving Repr, DecidableEq

/-- The launch pipeline of `world-launch.js`: force the detach flag for
cli worlds, resolve the effective port, ensure the image exists (building
it if needed), construct the run arguments, and execute the `docker run`.
Each `process.exit(1)` site becomes an error outcome that stops the
pipeline, so no later docker command is issued after a fatal error. -/
def launch (w : World) (worldDir absoluteDir : String) (portOverride : Option Nat)
    (detachedReq : Bool) (env : LaunchEnv) : LaunchOutcome :=
  let detached := effectiveDetached w detachedReq
  let port := launchPort w portOverride
  match ensureImage w worldDir env with
  | ⟨cmds, some e⟩ => ⟨cmds, Except.error e⟩
  | ⟨cmds, none⟩ =>
    match dockerArgs w absoluteDir port detached with
    | Except.error e => ⟨cmds, Except.error e⟩
    | Except.ok args => ⟨cmds ++ [DockerCmd.run args], Except.ok args⟩

/-- Argument construction of the alternate launcher script
(src/unnamed/part_006 lines 61-74): same type dispatch, but no volume
mount support and no cli forcing of the detach flag, so `-d` is pushed
whenever detach was requested, for either type. -/
def dockerArgsAlt (w : World) (port : Nat) (detached : Bool) :
    Except LaunchError (List String) :=
  if w.type = "web" then
    Except.ok (["run", "--rm", "-p", toString port ++ ":80"]
      ++ (if detached then ["-d"] else []) ++ [w.image])
  else if w.type = "cli" then
    Except.ok (["run", "--rm", "-it"]
      ++ (if detached then ["-d"] else []) ++ [w.image])
  else
    Except.error (LaunchError.UnknownWorldType w.type)

/-- The volume bind mounts docker would extract from an argument list:
every element following a `-v` flag. Used to state which invocations
contain a bind mount. -/
def bindMounts : List String → List String
  | [] => []
  | [_] => []
  | a :: v :: rest =>
    if a = "-v" then v :: bindMounts rest else bindMounts (v :: rest)

/-- Result of one `docker ps --filter ancestor=image` query at a probe
site: the invocation itself threw (daemon unreachable, binary missing),
or it produced (already trimmed) output. -/
inductive ProbeResult where
  | error
  | output (s : String)
deriving Repr, DecidableEq

/-- JS `string.split(sep)` over a character list: splitting the empty
string yields one empty field, and a trailing separator yields a trailing
empty field, matching JavaScript semantics. -/
def jsSplitChars (sep : Char) : List Char → List (List Char)
  | [] => [[]]
  | a :: rest =>
    if a = sep then [] :: jsSplitChars sep rest
    else
      match jsSplitChars sep rest with
      | [] => [[a]]
      | line :: more => (a :: line) :: more

/-- JS `s.split(sep)` for a one-character separator. -/
def jsSplit (sep : Char) (s : String) : List String :=
  (jsSplitChars sep s.toList).map List.asString

/-- The `isRunning` probe of `WorldPortal.loadWorlds` (part_005 lines
117-127): the `docker ps` error is caught and the world is reported as
not running; otherwise running iff the trimmed output is non-empty. -/
def isRunningProbe : ProbeResult → Bool
  | ProbeResult.error => false
  | ProbeResult.output s => decide (0 < s.length)

/-- Container identifiers parsed by the world-stop script (part_003 line
36): `output.split('\n').map(line => line.split(' ')[0])`. -/
def containerIds (out : String) : List String :=
  (jsSplit '\n' out).map (fun line => (jsSplit ' ' line).headD "")

/-- Outcome of the world-stop script: process exit code, the container
ids a `docker stop` was attempted against, in order, and the ids whose
stop failed and were reported with a per-container warning. -/
structure StopOutcome where
  exitCode : Nat
  stopsAttempted : List String
  failuresReported : List String
deriving Repr, DecidableEq

/-- The world-stop script (src/unnamed/part_003): a failing `docker ps`
probe is fatal (exit 1); empty output is a successful no-op; otherwise a
`docker stop` is attempted for every parsed id, each failure caught and
warned about individually, and the script exits 0. `stopFails id` models
whether `docker stop id` throws. -/
def worldStop (probe : ProbeResult) (stopFails : String → Bool) : StopOutcome :=
  match probe with
  | ProbeResult.error => ⟨1, [], []⟩
  | ProbeResult.output out =>
    if out = "" then ⟨0, [], []⟩
    else
      ⟨0, containerIds out, (containerIds out).filter stopFails⟩

/-- One world entry of the interactive portal list: the parsed descriptor,
its directory name, and the probed running flag. -/
structure WorldView where
  world : World
  directory : String
  isRunning : Bool
deriving Repr, DecidableEq

/-- On-disk and runtime state of one subdirectory of the scan root:
whether it holds a `world.json`, the parse result (`none` models a throw
from `JSON.parse`), and the `docker ps` probe result for its image. -/
structure DirEntry where
  name : String
  hasWorldJson : Bool
  parsed : Option World
  probe : ProbeResult
deriving Repr, DecidableEq

/-- One directory's contribution to `WorldPortal.loadWorlds` (part_005
lines 111-139): skipped without a `world.json`, skipped with a warning
when the parse throws, otherwise a view with the probed running flag. -/
def loadDir (d : DirEntry) : Option WorldView :=
  if d.hasWorldJson then
    match d.parsed with
    | some w => some ⟨w, d.name, isRunningProbe d.probe⟩
    | none => none
  else none

/-- The views produced by one full scan-and-probe pass over the
subdirectories, in enumeration order. -/
def scanWorlds (dirs : List DirEntry) : List WorldView :=
  dirs.filterMap loadDir

/-- `WorldPortal.loadWorlds` as a function of the previous `this.worlds`
array: the body pushes every scanned view onto the existing array and
never clears it (part_005 line 129), so the result is the previous list
with the fresh scan appended. -/
def loadWorlds (prev : List WorldView) (dirs : List DirEntry) : List WorldView :=
  prev ++ scanWorlds dirs

/-- Names of directories that produced a non-fatal parse warning during a
scan: those holding a `world.json` that failed to parse. -/
def parseWarnings (dirs : List DirEntry) : List String :=
  (dirs.filter (fun d => d.hasWorldJson && d.parsed.isNone)).map DirEntry.name

/-- Catalog entry written by the generate-catalog scan of `world-list.js`,
with its falsy-field defaults applied. -/
structure CatalogEntry where
  name : String
  description : String
  image : String
  type : String
  port : Option Nat
  tags : List String
deriving Repr, DecidableEq

/-- Entry construction of the generate-catalog scan: `world.name ||
dirent.name`, `world.type || "web"`, `world.port || null`, with absent
strings modelled as empty. -/
def catalogEntry (dirName : String) (w : World) : CatalogEntry :=
  ⟨if w.name = "" then dirName else w.name,
   w.description, w.image,
   if w.type = "" then "web" else w.type,
   w.port, w.tags⟩

/-- The generate-catalog scan loop of `world-list.js` (second script,
lines 45-69): directories without `world.json` are skipped, parse
failures warn and skip, every well-formed descriptor becomes an entry.
Returns the entries and the warned directory names. -/
def generateCatalog (dirs : List DirEntry) : List CatalogEntry × List String :=
  ⟨dirs.filterMap (fun d =>
     if d.hasWorldJson then d.parsed.map (catalogEntry d.name) else none),
   parseWarnings dirs⟩

/-- Navigation state of the portal: the world list and the selection
cursor. The cursor is a JS number, modelled as an integer. -/
structure PortalState where
  worlds : List WorldView
  selectedIndex : Int
deriving Repr, DecidableEq

/-- The move-cursor-up handler (part_005 lines 218-221):
`this.selectedIndex = Math.max(0, this.selectedIndex - 1)`; the world
list is untouched and no docker command is issued. -/
def handleUp (s : PortalState) : PortalState :=
  ⟨s.worlds, max 0 (s.selectedIndex - 1)⟩

/-- The move-cursor-down handler (part_005 lines 223-226):
`this.selectedIndex = Math.min(this.worlds.length - 1, this.selectedIndex + 1)`;
the world list is untouched and no docker command is issued. -/
def handleDown (s : PortalState) : PortalState :=
  ⟨s.worlds, min ((s.worlds.length : Int) - 1) (s.selectedIndex + 1)⟩

/-- A concrete web-type descriptor used for witnesses and scenarios. -/
def demoWeb : World :=
  ⟨"demo", "x/demo", "a demo world", "npm start", "web", some 9000, ["demo"], true⟩

/-- A concrete web-type descriptor with the volume mount disabled. -/
def demoWebNoMount : World :=
  ⟨"plain", "x/plain", "a plain web world", "npm start", "web", some 8080, [], false⟩

/-- A concrete cli-type descriptor used for witnesses and counterexamples. -/
def demoCli : World :=
  ⟨"demo-cli", "x/cli", "a cli world", "npm start", "cli", none, [], false⟩

/-- A concrete descriptor with an unrecognized type. -/
def demoGame : World :=
  ⟨"demo-game", "x/game", "an unknown-type world", "npm start", "game", none, [], false⟩

/-- A scan-root directory holding a well-formed descriptor. -/
def goodDir : DirEntry := ⟨"good-world", true, some demoWeb, ProbeResult.output ""⟩

/-- A scan-root directory whose descriptor file fails to parse. -/
def badDir : DirEntry := ⟨"bad-world", true, none, ProbeResult.output ""⟩

/-- The parsed descriptor of a directory, with a default for the cases a
characterization lemma filters out anyway. -/
def parsedOrEmpty (d : DirEntry) : World :=
  d.parsed.getD ⟨"", "", "", "", "", none, [], false⟩

lemma bindMounts_cons_ne (a v : String) (rest : List String) (h : a ≠ "-v") :
    bindMounts (a :: v :: rest) = bindMounts (v :: rest) := by
  simp [bindMounts, h]

lemma bindMounts_cons_v (v : String) (rest : List String) :
    bindMounts ("-v" :: v :: rest) = v :: bindMounts rest := by
  simp [bindMounts]

lemma bindMounts_singleton (x : String) : bindMounts [x] = [] := rfl

lemma port_arg_ne_v (p : Nat) : toString p ++ ":80" ≠ "-v" := by
  intro h
  have hl := congrArg String.length h
  rw [String.length_append] at hl
  have h80 : (":80" : String).length = 3 := by decide
  have hv : ("-v" : String).length = 2 := by decide
  omega

/-- Whether a trace of docker commands contains a `docker run`. -/
def hasRun (cmds : List DockerCmd) : Bool :=
  cmds.any fun c => match c with | DockerCmd.run _ => true | _ => false

/-- Whether a trace of docker commands contains a `docker build`. -/
def hasBuild (cmds : List DockerCmd) : Bool :=
  cmds.any fun c => match c with | DockerCmd.build _ _ => true | _ => false

/-- Whether a launch result is a fatal error (a non-zero process exit). -/
def isError : Except LaunchError (List String) → Bool
  | Except.error _ => true
  | Except.ok _ => false

/-- A concrete three-element world list for the navigation scenario. -/
def threeWorlds : List WorldView :=
  [⟨demoWeb, "a", false⟩, ⟨demoWebNoMount, "b", false⟩, ⟨demoCli, "c", true⟩]

/-- C2, counterexample: the world-stop script does not fail open — when
its `docker ps` probe errors it exits 1 instead of treating the world as
not running (which would be the exit-0 no-op path). -/
theorem c2_stop_probe_error_counterexample :
    (worldStop ProbeResult.error (fun _ => false)).exitCode = 1
    ∧ ¬ (worldStop ProbeResult.error (fun _ => false)).exitCode = 0 := by
  decide

/-- C2, amended: the discovery/listing probe of `WorldPortal.loadWorlds`
fails open — a world whose `docker ps` query errors is still listed, as
not running, and the scan is not aborted — but the probe of the stop
operation propagates: a `docker ps` failure makes world-stop exit 1 with
no terminate attempted. -/
theorem c2_probe_error_amended (d : DirEntry) (w : World) (stopFails : String → Bool)
    (hj : d.hasWorldJson = true) (hp : d.parsed = some w)
    (he : d.probe = ProbeResult.error) :
    loadDir d = some ⟨w, d.name, false⟩
    ∧ worldStop ProbeResult.error stopFails = ⟨1, [], []⟩ := by
  constructor
  · simp [loadDir, hj, hp, he, isRunningProbe]
  · rfl

/-- Witness for C2 at a concrete directory whose runtime probe errors. -/
theorem c2_probe_error_amended_witness :
    (⟨"err-world", true, some demoWeb, ProbeResult.error⟩ : DirEntry).hasWorldJson = true
    ∧ (⟨"err-world", true, some demoWeb, ProbeResult.error⟩ : DirEntry).parsed = some demoWeb
    ∧ (⟨"err-world", true, some demoWeb, ProbeResult.error⟩ : DirEntry).probe = ProbeResult.error
    ∧ (loadDir ⟨"err-world", true, some demoWeb, ProbeResult.error⟩ =
        some ⟨demoWeb, "err-world", false⟩
      ∧ worldStop ProbeResult.error (fun _ => false) = ⟨1, [], []⟩) :=
  ⟨rfl, rfl, rfl,
   c2_probe_error_amended ⟨"err-world", true, some demoWeb, ProbeResult.error⟩ demoWeb
     (fun _ => false) rfl rfl rfl⟩

/-- C3: with zero running instances (empty probe output) world-stop exits
0 and attempts no `docker stop`; in particular a second stop right after
a first one, with no intervening launch, again sees zero instances and is
the same no-op. -/
theorem c3_stop_zero_instances_noop (stopFails : String → Bool) :
    worldStop (ProbeResult.output "") stopFails = ⟨0, [], []⟩ := by
  simp [worldStop]

/-- C4: with non-empty probe output, world-stop attempts a `docker stop`
for every parsed container id — independently of which stops fail — and
reports exactly the failing ids, exiting 0. -/
theorem c4_stop_attempts_all (out : String) (stopFails : String → Bool) (h : out ≠ "") :
    (worldStop (ProbeResult.output out) stopFails).exitCode = 0
    ∧ (worldStop (ProbeResult.output out) stopFails).stopsAttempted = containerIds out
    ∧ (worldStop (ProbeResult.output out) stopFails).failuresReported =
        (containerIds out).filter stopFails := by
  simp [worldStop, h]

/-- Witness for C4: two running containers, the first fails to stop, the
second is still attempted and the failure is reported per-instance. -/
theorem c4_stop_attempts_all_witness :
    ("aaa w1\nbbb w2" : String) ≠ ""
    ∧ ((worldStop (ProbeResult.output "aaa w1\nbbb w2") (fun s => s == "aaa")).exitCode = 0
      ∧ (worldStop (ProbeResult.output "aaa w1\nbbb w2") (fun s => s == "aaa")).stopsAttempted =
          containerIds "aaa w1\nbbb w2"
      ∧ (worldStop (ProbeResult.output "aaa w1\nbbb w2") (fun s => s == "aaa")).failuresReported =
          (containerIds "aaa w1\nbbb w2").filter (fun s => s == "aaa")) :=
  ⟨by decide, c4_stop_attempts_all "aaa w1\nbbb w2" (fun s => s == "aaa") (by decide)⟩

/-- C8, code bug: `WorldPortal.loadWorlds` pushes the fresh scan onto the
previous `this.worlds` without clearing it, so after a refresh the list is
the previous snapshot with the scan appended — it duplicates the world —
instead of equalling the fresh derivation, contradicting the documented
recompute-from-scratch design. -/
theorem c8_loadworlds_appends_not_rederives :
    loadWorlds (loadWorlds [] [goodDir]) [goodDir] =
      [⟨demoWeb, "good-world", false⟩, ⟨demoWeb, "good-world", false⟩]
    ∧ scanWorlds [goodDir] = [⟨demoWeb, "good-world", false⟩]
    ∧ loadWorlds (loadWorlds [] [goodDir]) [goodDir] ≠ scanWorlds [goodDir] := by
  decide

/-- C10: with a non-empty world list and an in-range cursor, the up and
down handlers keep the cursor in [0, length-1], leave the world list
untouched, clamp at both ends, and in the three-world scenario two downs
from index 0 land on 2 and a third down stays at 2. -/
theorem c10_cursor_clamped (s : PortalState) (hne : s.worlds ≠ [])
    (h0 : 0 ≤ s.selectedIndex) (h1 : s.selectedIndex ≤ (s.worlds.length : Int) - 1) :
    ((handleUp s).worlds = s.worlds ∧ (handleDown s).worlds = s.worlds)
    ∧ (0 ≤ (handleUp s).selectedIndex
      ∧ (handleUp s).selectedIndex ≤ (s.worlds.length : Int) - 1)
    ∧ (0 ≤ (handleDown s).selectedIndex
      ∧ (handleDown s).selectedIndex ≤ (s.worlds.length : Int) - 1)
    ∧ (s.selectedIndex = 0 → (handleUp s).selectedIndex = 0)
    ∧ (s.selectedIndex = (s.worlds.length : Int) - 1 →
        (handleDown s).selectedIndex = (s.worlds.length : Int) - 1)
    ∧ (handleDown (handleDown ⟨threeWorlds, 0⟩)).selectedIndex = 2
    ∧ (handleDown (handleDown (handleDown ⟨threeWorlds, 0⟩))).selectedIndex = 2 := by
  have hlen : 0 < s.worlds.length := List.length_pos.mpr hne
  refine ⟨⟨rfl, rfl⟩, ?_, ?_, ?_, ?_, by decide, by decide⟩ <;>
    simp [handleUp, handleDown] <;> omega

/-- Witness for C10 at the concrete three-world state with the cursor at
index 0. -/
theorem c10_cursor_clamped_witness :
    (⟨threeWorlds, 0⟩ : PortalState).worlds ≠ []
    ∧ 0 ≤ (⟨threeWorlds, 0⟩ : PortalState).selectedIndex
    ∧ (⟨threeWorlds, 0⟩ : PortalState).selectedIndex ≤
        ((⟨threeWorlds, 0⟩ : PortalState).worlds.length : Int) - 1
    ∧ (((handleUp ⟨threeWorlds, 0⟩).worlds = (⟨threeWorlds, 0⟩ : PortalState).worlds
        ∧ (handleDown ⟨threeWorlds, 0⟩).worlds = (⟨threeWorlds, 0⟩ : PortalState).worlds)
      ∧ (0 ≤ (handleUp ⟨threeWorlds, 0⟩).selectedIndex
        ∧ (handleUp ⟨threeWorlds, 0⟩).selectedIndex ≤
            ((⟨threeWorlds, 0⟩ : PortalState).worlds.length : Int) - 1)
      ∧ (0 ≤ (handleDown ⟨threeWorlds, 0⟩).selectedIndex
        ∧ (handleDown ⟨threeWorlds, 0⟩).selectedIndex ≤
            ((⟨threeWorlds, 0⟩ : PortalState).worlds.length : Int) - 1)
      ∧ ((⟨threeWorlds, 0⟩ : PortalState).selectedIndex = 0 →
          (handleUp ⟨threeWorlds, 0⟩).selectedIndex = 0)
      ∧ ((⟨threeWorlds, 0⟩ : PortalState).selectedIndex =
            ((⟨threeWorlds, 0⟩ : PortalState).worlds.length : Int) - 1 →
          (handleDown ⟨threeWorlds, 0⟩).selectedIndex =
            ((⟨threeWorlds, 0⟩ : PortalState).worlds.length : Int) - 1)
      ∧ (handleDown (handleDown ⟨threeWorlds, 0⟩)).selectedIndex = 2
      ∧ (handleDown (handleDown (handleDown ⟨threeWorlds, 0⟩))).selectedIndex = 2) :=
  ⟨by decide, by decide, by decide,
   c10_cursor_clamped ⟨threeWorlds, 0⟩ (by decide) (by decide) (by decide)⟩

/-- C1, counterexample: for a descriptor with the unrecognized type
`game`, on a host where the image is absent and the world directory has
no Dockerfile, launch fails with `MissingBuildContext`, not
`UnknownWorldType` — the image-existence/build check runs before type
validation. -/
theorem c1_unknown_type_counterexample :
    (launch demoGame "w" "w" none false ⟨false, false, true⟩).result =
      Except.error LaunchError.MissingBuildContext
    ∧ (launch demoGame "w" "w" none false ⟨false, false, true⟩).result ≠
      Except.error (LaunchError.UnknownWorldType "game") := by
  decide

/-- C1, amended: for every descriptor whose type is neither `web` nor
`cli`, launch always fails (non-zero exit) and never executes a
`docker run`; the error is `UnknownWorldType` — never a silently
defaulted type — whenever the preceding image phase succeeds (the image
exists locally, or it is built successfully from a present Dockerfile);
if that phase fails first, launch aborts with its error instead. -/
theorem c1_unknown_type_fails_amended (w : World) (wd ad : String) (po : Option Nat)
    (req : Bool) (env : LaunchEnv) (hw : w.type ≠ "web") (hc : w.type ≠ "cli") :
    hasRun (launch w wd ad po req env).cmds = false
    ∧ isError (launch w wd ad po req env).result = true
    ∧ ((env.imageExists = true ∨ env.dockerfileExists = true ∧ env.buildSucceeds = true) →
        (launch w wd ad po req env).result =
          Except.error (LaunchError.UnknownWorldType w.type)) := by
  obtain ⟨ie, de, bs⟩ := env
  cases ie <;> cases de <;> cases bs <;>
    refine ⟨?_, ?_, ?_⟩ <;>
    simp [launch, ensureImage, dockerArgs, hasRun, isError, hw, hc]

/-- Witness for C1 at the concrete unknown-type descriptor with the image
present locally. -/
theorem c1_unknown_type_fails_amended_witness :
    demoGame.type ≠ "web"
    ∧ demoGame.type ≠ "cli"
    ∧ (hasRun (launch demoGame "w" "w" none false ⟨true, false, true⟩).cmds = false
      ∧ isError (launch demoGame "w" "w" none false ⟨true, false, true⟩).result = true
      ∧ ((⟨true, false, true⟩ : LaunchEnv).imageExists = true
          ∨ (⟨true, false, true⟩ : LaunchEnv).dockerfileExists = true
            ∧ (⟨true, false, true⟩ : LaunchEnv).buildSucceeds = true →
          (launch demoGame "w" "w" none false ⟨true, false, true⟩).result =
            Except.error (LaunchError.UnknownWorldType demoGame.type))) :=
  ⟨by decide, by decide,
   c1_unknown_type_fails_amended demoGame "w" "w" none false ⟨true, false, true⟩
     (by decide) (by decide)⟩

/-- C5, counterexample: the alternate launcher script does not force the
detach flag off for cli worlds — with a detached request for a cli
descriptor its constructed invocation contains `-d`. -/
theorem c5_alt_launcher_counterexample :
    dockerArgsAlt demoCli 8080 true = Except.ok ["run", "--rm", "-it", "-d", "x/cli"]
    ∧ "-d" ∈ ["run", "--rm", "-it", "-d", "x/cli"] := by
  decide

/-- C5, amended: in the primary launcher `world-launch.js`, a cli
descriptor forces the detach flag to false, the whole launch outcome is
independent of the detach request, and a successful constructed
invocation has exactly `run --rm -it` before the image, with no `-d`;
the alternate launcher script, however, pushes `-d` for a cli world when
a detached launch is requested. -/
theorem c5_cli_forces_foreground_amended (w : World) (wd ad : String) (po : Option Nat)
    (req : Bool) (env : LaunchEnv) (args : List String) (h : w.type = "cli")
    (hok : (launch w wd ad po req env).result = Except.ok args) :
    effectiveDetached w req = false
    ∧ launch w wd ad po req env = launch w wd ad po false env
    ∧ args.dropLast = ["run", "--rm", "-it"]
    ∧ "-d" ∉ args.dropLast := by
  have hd : effectiveDetached w req = false := by simp [effectiveDetached, h]
  refine ⟨hd, by simp [launch, effectiveDetached, h], ?_, ?_⟩ <;>
  · obtain ⟨ie, de, bs⟩ := env
    cases ie <;> cases de <;> cases bs <;>
      simp [launch, ensureImage, dockerArgs, hd, h] at hok <;>
      simp [← hok]

/-- Witness for C5 at the concrete cli descriptor with a detached request
and the image present locally. -/
theorem c5_cli_forces_foreground_amended_witness :
    demoCli.type = "cli"
    ∧ (launch demoCli "w" "w" none true ⟨true, false, true⟩).result =
        Except.ok ["run", "--rm", "-it", "x/cli"]
    ∧ (effectiveDetached demoCli true = false
      ∧ launch demoCli "w" "w" none true ⟨true, false, true⟩ =
          launch demoCli "w" "w" none false ⟨true, false, true⟩
      ∧ (["run", "--rm", "-it", "x/cli"] : List String).dropLast = ["run", "--rm", "-it"]
      ∧ "-d" ∉ (["run", "--rm", "-it", "x/cli"] : List String).dropLast) :=
  ⟨by decide, by decide,
   c5_cli_forces_foreground_amended demoCli "w" "w" none true ⟨true, false, true⟩
     ["run", "--rm", "-it", "x/cli"] (by decide) (by decide)⟩

/-- C6: for a web descriptor, the successfully constructed invocation of
`world-launch.js` carries exactly one volume bind mount — of the world
directory onto the container application root `/app` — when `volumeMount`
is set, and none when it is false or absent. -/
theorem c6_web_volume_mount (w : World) (ad : String) (p : Nat) (det : Bool)
    (args : List String) (hw : w.type = "web")
    (hok : dockerArgs w ad p det = Except.ok args) :
    (w.volumeMount = true → bindMounts args = [ad ++ ":/app"])
    ∧ (w.volumeMount = false → bindMounts args = []) := by
  simp [dockerArgs, hw] at hok
  cases hv : w.volumeMount <;> cases det <;>
    simp [hv] at hok <;>
    simp [← hok, hv, bindMounts_cons_ne, bindMounts_cons_v, bindMounts_singleton,
      port_arg_ne_v]

/-- Witness for C6 at the concrete web descriptor with `volumeMount`
enabled, port 9000, foreground. -/
theorem c6_web_volume_mount_witness :
    demoWeb.type = "web"
    ∧ dockerArgs demoWeb "/abs/w" 9000 false =
        Except.ok ["run", "--rm", "-p", "9000:80", "-v", "/abs/w:/app", "x/demo"]
    ∧ ((demoWeb.volumeMount = true →
        bindMounts ["run", "--rm", "-p", "9000:80", "-v", "/abs/w:/app", "x/demo"] =
          ["/abs/w" ++ ":/app"])
      ∧ (demoWeb.volumeMount = false →
        bindMounts ["run", "--rm", "-p", "9000:80", "-v", "/abs/w:/app", "x/demo"] = [])) :=
  ⟨by decide, by decide,
   c6_web_volume_mount demoWeb "/abs/w" 9000 false
     ["run", "--rm", "-p", "9000:80", "-v", "/abs/w:/app", "x/demo"]
     (by decide) (by decide)⟩

/-- C7: when the image is absent locally, a missing Dockerfile makes the
launch fail with `MissingBuildContext` before any build or run is
executed; a present Dockerfile triggers exactly one synchronous
`docker build` (no retry), and a failed build is fatal with no
`docker run` executed. -/
theorem c7_ensure_image (w : World) (wd ad : String) (po : Option Nat) (req : Bool)
    (env : LaunchEnv) (hie : env.imageExists = false) :
    (env.dockerfileExists = false →
      (launch w wd ad po req env).result = Except.error LaunchError.MissingBuildContext
      ∧ hasRun (launch w wd ad po req env).cmds = false
      ∧ hasBuild (launch w wd ad po req env).cmds = false)
    ∧ (env.dockerfileExists = true →
      ((launch w wd ad po req env).cmds).count (DockerCmd.build w.image wd) = 1
      ∧ (env.buildSucceeds = false →
        (launch w wd ad po req env).result = Except.error LaunchError.BuildFailed
        ∧ hasRun (launch w wd ad po req env).cmds = false)) := by
  obtain ⟨ie, de, bs⟩ := env
  cases ie <;> cases de <;> cases bs <;> simp at hie <;>
    refine ⟨?_, ?_⟩ <;>
    simp [launch, ensureImage, hasRun, hasBuild]
  all_goals
    rcases hda : dockerArgs w ad (launchPort w po) (effectiveDetached w req) with e | a <;>
      simp [hda, List.count_cons]

/-- Witness for C7 at the spec scenario: descriptor demo/x/demo of type
web with port 9000, no local image, no Dockerfile in the build context. -/
theorem c7_ensure_image_witness :
    (⟨false, false, true⟩ : LaunchEnv).imageExists = false
    ∧ (((⟨false, false, true⟩ : LaunchEnv).dockerfileExists = false →
        (launch demoWeb "w" "w" none false ⟨false, false, true⟩).result =
          Except.error LaunchError.MissingBuildContext
        ∧ hasRun (launch demoWeb "w" "w" none false ⟨false, false, true⟩).cmds = false
        ∧ hasBuild (launch demoWeb "w" "w" none false ⟨false, false, true⟩).cmds = false)
      ∧ ((⟨false, false, true⟩ : LaunchEnv).dockerfileExists = true →
        ((launch demoWeb "w" "w" none false ⟨false, false, true⟩).cmds).count
            (DockerCmd.build demoWeb.image "w") = 1
        ∧ ((⟨false, false, true⟩ : LaunchEnv).buildSucceeds = false →
          (launch demoWeb "w" "w" none false ⟨false, false, true⟩).result =
            Except.error LaunchError.BuildFailed
          ∧ hasRun (launch demoWeb "w" "w" none false ⟨false, false, true⟩).cmds = false))) :=
  ⟨by decide,
   c7_ensure_image demoWeb "w" "w" none false ⟨false, false, true⟩ (by decide)⟩

lemma catalogEntries_exact (dirs : List DirEntry) :
    (generateCatalog dirs).1 =
      (dirs.filter (fun d => d.hasWorldJson && d.parsed.isSome)).map
        (fun d => catalogEntry d.name (parsedOrEmpty d)) := by
  induction dirs with
  | nil => rfl
  | cons d rest ih =>
    rcases hp : d.parsed with _ | w <;> cases hj : d.hasWorldJson <;>
      simp [generateCatalog, List.filterMap_cons, List.filter_cons, hj, hp,
        parsedOrEmpty, ih] at * <;>
      simpa [generateCatalog] using ih

lemma scanWorlds_exact (dirs : List DirEntry) :
    scanWorlds dirs =
      (dirs.filter (fun d => d.hasWorldJson && d.parsed.isSome)).map
        (fun d => ⟨parsedOrEmpty d, d.name, isRunningProbe d.probe⟩) := by
  induction dirs with
  | nil => rfl
  | cons d rest ih =>
    rcases hp : d.parsed with _ | w <;> cases hj : d.hasWorldJson <;>
      simp [scanWorlds, loadDir, List.filterMap_cons, List.filter_cons, hj, hp,
        parsedOrEmpty] at * <;>
      simpa [scanWorlds] using ih

/-- C9: both batch discovery passes — the generate-catalog scan and the
portal scan — return exactly the directories holding a well-formed
descriptor, in enumeration order; a directory with a missing descriptor
is skipped and a malformed one is excluded with a non-fatal warning, so
two directories with one malformed descriptor yield exactly one result
and one warning. -/
theorem c9_batch_discovery_exact (dirs : List DirEntry) :
    (generateCatalog dirs).1 =
      (dirs.filter (fun d => d.hasWorldJson && d.parsed.isSome)).map
        (fun d => catalogEntry d.name (parsedOrEmpty d))
    ∧ scanWorlds dirs =
      (dirs.filter (fun d => d.hasWorldJson && d.parsed.isSome)).map
        (fun d => ⟨parsedOrEmpty d, d.name, isRunningProbe d.probe⟩)
    ∧ generateCatalog [goodDir, badDir] =
        ⟨[catalogEntry "good-world" demoWeb], ["bad-world"]⟩
    ∧ scanWorlds [goodDir, badDir] = [⟨demoWeb, "good-world", false⟩] :=
  ⟨catalogEntries_exact dirs, scanWorlds_exact dirs, by decide, by decide⟩

end DockerWorlds
